import Mathlib

/-!
Verification of the Nolus oracle-price-feeder transaction pipeline.

Shallow embedding of the repository's core functions:

* the broadcaster loop of `libraries/broadcaster/src/lib.rs`
  (`Broadcast::broadcast_tx`, `Broadcast::broadcast_with_expiration`,
  `Broadcast::fetch_sequence_number`);
* the chain interaction helpers of `chain-comms/src/interact/mod.rs`
  (`simulate_tx`, `commit_tx_with_gas_estimation`, `calculate_fee`);
* the transaction builder of `chain-comms/src/build_tx/mod.rs`
  (`ContractTx`);
* the alarm dispatch loop of `alarms-dispatcher/src/main.rs`
  (`dispatch_alarm`, `commit_tx`);
* the environment-variable derivation of
  `crates/services/market-data-feeder/src/task/id.rs`
  (`Id::dex_node_grpc_var`).

Machine integers are represented by `Nat` with explicit `2 ^ 64` /
`2 ^ 128` bounds where the Rust code performs checked or saturating
arithmetic.  Network interactions (the simulate call, the broadcast
call, the sequence-number fetch) are represented by explicit oracle
parameters supplying the remote side's answer.
-/

/-! ## Broadcaster state (libraries/broadcaster/src/lib.rs)

`Broadcast` holds (among channel and delay fields irrelevant here) the
exclusively owned signer — of which only the sequence number matters to
the claims — and the `consecutive_errors : u8` counter (line 107,
initialised to 0 at line 130).  The sequence number itself lives in
`chain_ops::signer::Signer`, which is not among the sources; per the
spec (§3) it is an unsigned 64-bit counter mutated only by
`increment_sequence_number` (`+= 1`) and `fetch_sequence_number`
(overwrite with the chain's value).  Within one run it stays far below
`2 ^ 64`, so it is carried as a plain `Nat`. -/

structure BroadcastState where
  sequenceNumber : Nat
  consecutiveErrors : Nat
  deriving Repr, DecidableEq

/-- Outcome of one `broadcast_with_expiration` call inside
`Broadcast::broadcast_tx` (lib.rs lines 228-233 and 281-301):

* `expired` — the expiration deadline fired first;
  `broadcast_with_expiration` returned `None`;
* `transportFailed` — the broadcast itself returned `Err(_)`
  (a transport-level error, no response code at all);
* `response code` — a `TxResponse` whose `code` field is `code`
  (`0` is success; the `TxCode` conversion maps `0` to `Ok` and any
  other value `n` to `Err(n)`, so `is_ok()` holds exactly for `0` and
  `value()` is the raw code). -/
inductive BroadcastOutcome where
  | expired
  | transportFailed
  | response (code : Nat)
  deriving Repr, DecidableEq

/-- Observable effects of one iteration of the `broadcast_loop` labelled loop in
`Broadcast::broadcast_tx` (lib.rs lines 217-278):

* `state` — the broadcaster state after the iteration;
* `incrementCalled` — whether `signer.increment_sequence_number()`
  (line 253) was invoked;
* `fetchCalls` — how many times `fetch_sequence_number` (line 264)
  was invoked (0 or 1);
* `feedbackDelivered` — whether `feedback_sender.send(response)`
  (line 271) was reached;
* `exitsLoop` — `true` when the iteration ends in
  `break` out of the labelled loop (the broadcaster proceeds to the next
  package), `false` when it falls through to
  `sleep(retry_delay_duration)` (line 277) and retries the same package
  from the simulate-and-sign step at the top of the loop. -/
structure IterEffects where
  state : BroadcastState
  incrementCalled : Bool
  fetchCalls : Nat
  feedbackDelivered : Bool
  exitsLoop : Bool
  deriving Repr, DecidableEq

/-- One iteration of the `broadcast_loop` labelled loop of `Broadcast::broadcast_tx`
(lib.rs lines 217-278), given the outcome of
`broadcast_with_expiration` and, as an oracle, the sequence number the
chain would answer to a `fetch_sequence_number` query.

Control flow mirrored from the source:
* `None` from `broadcast_with_expiration` (expiration fired, lines
  228-233): `break` out of the labelled loop with `Ok(())` — nothing else happens.
* `Err(_)` (transport failure, lines 238-245): log and `break` out of the process block,
  which skips the whole classification block and lands at the
  retry-delay sleep — neither the signer nor `consecutive_errors` is
  touched and no feedback is sent.
* `Ok(response)`: lines 248-274: the sequence number is incremented
  when `tx_code.is_ok() || tx_code.value() == 32`; on `is_ok()` the
  error counter resets to 0; otherwise the counter becomes
  `(consecutive_errors + 1) % 5` and, when that wraps to 0,
  `fetch_sequence_number` overwrites the sequence number with the
  chain's value; finally, feedback is sent and the loop exits exactly
  when `tx_code.value() != 32`. -/
def broadcastIter (st : BroadcastState) (outcome : BroadcastOutcome)
    (fetchedSeq : Nat) : IterEffects :=
  match outcome with
  | .expired =>
      ⟨st, false, 0, false, true⟩
  | .transportFailed =>
      ⟨st, false, 0, false, false⟩
  | .response code =>
      let incremented := code == 0 || code == 32
      let seq :=
        if incremented then st.sequenceNumber + 1 else st.sequenceNumber
      if code == 0 then
        ⟨⟨seq, 0⟩, incremented, 0, true, true⟩
      else
        let ce := (st.consecutiveErrors + 1) % 5
        if ce == 0 then
          ⟨⟨fetchedSeq, ce⟩, incremented, 1, code != 32, code != 32⟩
        else
          ⟨⟨seq, ce⟩, incremented, 0, code != 32, code != 32⟩

/-- Folding `broadcastIter` over a list of (outcome, fetch-oracle)
pairs: the final broadcaster state together with the total number of
`fetch_sequence_number` calls made along the trace. -/
def broadcastTrace (st : BroadcastState) :
    List (BroadcastOutcome × Nat) → BroadcastState × Nat
  | [] => (st, 0)
  | (outcome, fetched) :: rest =>
      let out := broadcastIter st outcome fetched
      let tail := broadcastTrace out.state rest
      (tail.1, out.fetchCalls + tail.2)

/-! ## Chain interaction (chain-comms/src/interact/mod.rs) -/

/-- Gas report of a simulation, mirroring
`cosmos.base.abci.v1beta1.GasInfo` (two `u64` fields). -/
structure GasInfo where
  gasWanted : Nat
  gasUsed : Nat
  deriving Repr, DecidableEq

/-- Error cases of `interact::simulate_tx`
(chain-comms/src/interact/mod.rs lines 94-126) from the network
response onward. -/
inductive SimulateTxError where
  | transport
  | missingSimulationGasInfo
  | simulationGasExceedsLimit (used : Nat)
  deriving Repr, DecidableEq

/-- Classification step of `interact::simulate_tx`
(chain-comms/src/interact/mod.rs lines 105-125).  The remote simulate
call is an oracle: `nodeResult` is `.error ()` for a transport failure,
`.ok none` when the reply lacks a `gas_info` field, and `.ok (some gi)`
for a reply carrying `gi`.  The function then rejects the reply with
`SimulationGasExceedsLimit` when `gas_limit < gas_info.gas_used`
(lines 119-123) and returns the `GasInfo` otherwise.  (The earlier
signing of the simulation transaction, lines 101-103, can only fail
for reasons orthogonal to this check and is settled under the
`ContractTx` model below.) -/
def simulate_tx (gasLimit : Nat) (nodeResult : Except Unit (Option GasInfo)) :
    Except SimulateTxError GasInfo :=
  match nodeResult with
  | .error _ => .error .transport
  | .ok none => .error .missingSimulationGasInfo
  | .ok (some gasInfo) =>
      if gasLimit < gasInfo.gasUsed then
        .error (.simulationGasExceedsLimit gasInfo.gasUsed)
      else
        .ok gasInfo

/-- Gas-adjustment arithmetic of `interact::commit_tx_with_gas_estimation`
(chain-comms/src/interact/mod.rs lines 187-193), faithful to the Rust
operations on `u128`:

    u128::from(tx_gas_limit)
        .checked_mul(gas_adjustment_numerator.into())
        .and_then(|r| r.checked_div(gas_adjustment_denominator.into()))
        .map(|r| u64::try_from(r).unwrap_or(u64::MAX))
        .unwrap_or(tx_gas_limit)

`checked_mul` yields `none` when the product does not fit `u128`;
`checked_div` yields `none` only for a zero divisor (the configuration
field is a `NonZero` integer, read through `.get()`); the `u64`
narrowing clamps to `u64::MAX` on overflow; any `none` falls back to
the unadjusted `tx_gas_limit`.  Note: the result is *not* capped at
the `gas_limit` passed for simulation. -/
def adjusted_gas_limit (txGasLimit num den : Nat) : Nat :=
  let checkedMul : Option Nat :=
    if txGasLimit * num < 2 ^ 128 then some (txGasLimit * num) else none
  let checkedDiv : Option Nat :=
    match checkedMul with
    | some product => if den = 0 then none else some (product / den)
    | none => none
  match checkedDiv with
  | some quotient => if quotient < 2 ^ 64 then quotient else 2 ^ 64 - 1
  | none => txGasLimit

/-- Gas limit at which `interact::commit_tx_with_gas_estimation`
(chain-comms/src/interact/mod.rs lines 158-198) finally signs and
broadcasts: the simulated `gas_used` on simulation success, the
caller's `fallback_gas_limit` on simulation failure (lines 166-185),
then the adjustment arithmetic of `adjusted_gas_limit` — with no
further capping before the `commit_tx` call at line 195. -/
def commit_tx_with_gas_estimation_gas (gasLimit : Nat)
    (nodeResult : Except Unit (Option GasInfo))
    (fallbackGasLimit num den : Nat) : Nat :=
  let txGasLimit :=
    match simulate_tx gasLimit nodeResult with
    | .ok gasInfo => gasInfo.gasUsed
    | .error _ => fallbackGasLimit
  adjusted_gas_limit txGasLimit num den

/-- Fee coin, mirroring `cosmrs::Coin` (`u128` amount). -/
structure Coin where
  denom : String
  amount : Nat
  deriving Repr, DecidableEq

/-- Transaction fee, mirroring `cosmrs::tx::Fee` as produced by
`Fee::from_amount_and_gas(coin, gas_limit)`. -/
structure Fee where
  amount : Coin
  gasLimit : Nat
  deriving Repr, DecidableEq

/-- Fee amount computed by `interact::calculate_fee`
(chain-comms/src/interact/mod.rs lines 200-210), faithful to

    u128::from(gas_limit)
        .saturating_mul(gas_price_numerator.get().into())
        .saturating_div(gas_price_denominator.get().into())

on `u128`: the saturating product is `min (gasLimit * num) (2^128 - 1)`
and unsigned `saturating_div` is plain division (it cannot overflow).
The `gas_limit` argument is a `u64`; the configured numerator and
denominator are nonzero 64-bit integers widened to `u128` via
`.into()`.  There is no fallback-to-unmultiplied-gas branch here: the
arithmetic saturates instead (and, for 64-bit operands, never needs
to). -/
def calculate_fee_amount (gasLimit num den : Nat) : Nat :=
  min (gasLimit * num) (2 ^ 128 - 1) / den

/-- Full result of `interact::calculate_fee`
(chain-comms/src/interact/mod.rs lines 200-210):
`Fee::from_amount_and_gas(Coin::new(amount, fee_denom), gas_limit)`. -/
def calculate_fee (feeDenom : String) (gasLimit num den : Nat) : Fee :=
  ⟨⟨feeDenom, calculate_fee_amount gasLimit num den⟩, gasLimit⟩

/-! ## Transaction builder (chain-comms/src/build_tx/mod.rs) -/

/-- One queued contract message of `build_tx::Msg`
(chain-comms/src/build_tx/mod.rs lines 20-24): serialized message
bytes plus attached funds. -/
structure Msg where
  message : List Nat
  funds : List Coin
  deriving Repr, DecidableEq

/-- An in-construction transaction, `build_tx::ContractTx`
(chain-comms/src/build_tx/mod.rs lines 26-31): the target contract
address and the accumulated message list. -/
structure ContractTx where
  contract : String
  messages : List Msg
  deriving Repr, DecidableEq

/-- Constructor `ContractTx::new` (build_tx/mod.rs lines 34-39):
empty message list. -/
def ContractTx.new (contract : String) : ContractTx :=
  ⟨contract, []⟩

/-- Emptiness test `ContractTx::is_empty` (build_tx/mod.rs lines
41-44): `self.messages.is_empty()`. -/
def ContractTx.is_empty (tx : ContractTx) : Bool :=
  tx.messages.isEmpty

/-- Accumulator `ContractTx::add_message` (build_tx/mod.rs lines
46-50). -/
def ContractTx.add_message (tx : ContractTx) (message : List Nat)
    (funds : List Coin) : ContractTx :=
  ⟨tx.contract, tx.messages ++ [⟨message, funds⟩]⟩

/-- A `cosmwasm.wasm.v1.MsgExecuteContract` as built by
`ContractTx::serialize` (build_tx/mod.rs lines 52-70). -/
structure MsgExecuteContract where
  sender : String
  contract : String
  msg : List Nat
  funds : List Coin
  deriving Repr, DecidableEq

/-- Message-list serialization `ContractTx::serialize` (build_tx/mod.rs
lines 52-70): each queued message becomes a `MsgExecuteContract` with
the signer's address as sender and the transaction's contract as
target.  (`ProtobufAny::from_msg` only fails on protobuf encoding
failure, which cannot occur for this message type; the map-and-fold is
therefore total.) -/
def ContractTx.serialize (tx : ContractTx) (signerAddress : String) :
    List MsgExecuteContract :=
  tx.messages.map fun msg => ⟨signerAddress, tx.contract, msg.message, msg.funds⟩

/-- A transaction body, mirroring `cosmrs::tx::Body::new(messages,
memo, timeout_height)`. -/
structure TxBody where
  messages : List MsgExecuteContract
  memo : String
  timeoutHeight : Nat
  deriving Repr, DecidableEq

/-- Signing error of the signer's `sign`. -/
inductive SignError where
  | emptyMessages
  deriving Repr, DecidableEq

/-- A signed raw transaction: the body and fee the signer committed
to.  (The actual bytes are an injective protobuf encoding of these
together with the signature; the claims only need the committed
fields.) -/
structure RawTx where
  body : TxBody
  fee : Fee
  deriving Repr, DecidableEq

/-- Signer data visible to the transaction builder. -/
structure Signer where
  address : String
  deriving Repr, DecidableEq

/-- Modelled from the spec: `Signer::sign` (the chain-comms signer
module is not among the sources; only its caller
`ContractTx::commit` is).  Per the spec's boundary behavior, a commit
of an empty contract-message list is rejected — the signer refuses to
sign a body with no messages — and signing never blocks on the
network; other inputs sign successfully and deterministically. -/
def Signer.sign (_signer : Signer) (body : TxBody) (fee : Fee) :
    Except SignError RawTx :=
  if body.messages.isEmpty then .error .emptyMessages else .ok ⟨body, fee⟩

/-- Commit `ContractTx::commit` (build_tx/mod.rs lines 72-92):
serialize the messages, build a `Body` with the given memo (default
empty) and timeout height (default zero), and defer to the signer's
`sign`. -/
def ContractTx.commit (tx : ContractTx) (signer : Signer) (fee : Fee)
    (memo : Option String) (timeout : Option Nat) :
    Except SignError RawTx :=
  signer.sign ⟨tx.serialize signer.address, memo.getD (""), timeout.getD 0⟩ fee

/-! ## Broadcaster signing (libraries/broadcaster/src/lib.rs and the
spec's signer) -/

/-- Modelled from the spec: the gas limit chosen by
`Signer::tx_with_gas_adjustment` (the `chain_ops::signer` module is
not among the sources; only its caller
`Broadcast::simulate_and_sign_tx`, lib.rs line 154, is).  Spec §4.2:
`sign_with_adjustment(body, simulated_gas, hard_limit)` computes
`min(hard_limit, simulated_gas × adj_num / adj_den)` then defers to
`sign`. -/
def tx_with_gas_adjustment_gas (simulatedGas hardGasLimit num den : Nat) :
    Nat :=
  min hardGasLimit (simulatedGas * num / den)

/-- Gas limit at which `Broadcast::simulate_and_sign_tx`
(libraries/broadcaster/src/lib.rs lines 134-167) signs the
transaction that will be broadcast: on simulation success (the oracle
`simulated` is `.ok gas`) the signer's adjustment
`tx_with_gas_adjustment(tx, gas, hard_gas_limit)`; on simulation
failure, the package's `fallback_gas` (lines 150-165). -/
def simulate_and_sign_tx_gas (simulated : Except Unit Nat)
    (hardGasLimit fallbackGas num den : Nat) : Nat :=
  match simulated with
  | .ok gas => tx_with_gas_adjustment_gas gas hardGasLimit num den
  | .error _ => fallbackGas

/-! ## Alarms dispatcher (alarms-dispatcher/src/main.rs) -/

/-- Gas limit of the final (broadcast) transaction built by the
dispatcher's `commit_tx` (alarms-dispatcher/src/main.rs lines
286-298), faithful to

    gas_info.gas_used
        .checked_mul(11)
        .and_then(|result| result.checked_div(10))
        .unwrap_or(gas_info.gas_used)

on `u64`: `checked_mul(11)` is `none` when the product does not fit
`u64` and the division by the nonzero constant 10 always succeeds, so
the computation falls back to the raw `gas_used` exactly when the
multiplication overflows. -/
def dispatcher_commit_gas (gasUsed : Nat) : Nat :=
  let checkedMul : Option Nat :=
    if gasUsed * 11 < 2 ^ 64 then some (gasUsed * 11) else none
  let checkedDiv : Option Nat :=
    match checkedMul with
    | some product => some (product / 10)
    | none => none
  checkedDiv.getD gasUsed

/-- The dispatch loop of `dispatch_alarm` (alarms-dispatcher/src/main.rs
lines 208-236), driven by an oracle trace: each loop iteration consumes
one `(remaining, dispatched)` pair, where `remaining` is the
`remaining_for_dispatch()` field of the `query_status` response and
`dispatched` is the `dispatched_alarms()` count the `commit_tx`
response would report if a dispatch transaction is sent this
iteration.  The result is the number of `DispatchAlarms { max_count }`
transactions sent before the function returns `Ok(())` (back to the
idle period), or `none` if the trace is exhausted while the loop is
still running:

* `remaining` false: return immediately, no transaction sent;
* `remaining` true: send one transaction; if it reports exactly
  `max_alarms` dispatched alarms, `continue` (re-query immediately),
  otherwise return. -/
def dispatch_alarm (maxAlarms : Nat) :
    List (Bool × Nat) → Option Nat
  | [] => none
  | (remaining, dispatched) :: rest =>
      if remaining then
        if dispatched == maxAlarms then
          match dispatch_alarm maxAlarms rest with
          | some sent => some (sent + 1)
          | none => none
        else
          some 1
      else
        some 0

/-! ## Task identifiers (crates/services/market-data-feeder/src/task/id.rs) -/

/-- ASCII-uppercase test, mirroring Rust's `char::is_ascii_uppercase`. -/
def isAsciiUppercase (c : Char) : Bool :=
  'A' ≤ c && c ≤ 'Z'

/-- ASCII uppercasing of one character, mirroring Rust's
`char::to_ascii_uppercase` as applied characterwise by
`str::to_ascii_uppercase`: `a`-`z` map to `A`-`Z` (a shift of 32 code
points down), every other character is unchanged. -/
def to_ascii_uppercase (c : Char) : Char :=
  if 'a' ≤ c && c ≤ 'z' then Char.ofNat (c.toNat - 32) else c

/-- The underscore-insertion loop of `Id::dex_node_grpc_var`
(id.rs lines 38-47).  The imperative loop keeps a byte index
`search_index`, starting at 1, finds the first ASCII-uppercase
character at or after it, inserts `'_'` immediately before that
character and resumes scanning right after it (`search_index =
index + 2`, accounting for the inserted byte).  The character at
index 0 is therefore never examined, every later character is examined
exactly once, and the loop is equivalent to inserting `'_'` before
every ASCII-uppercase character of the tail.  This function is that
per-character pass over the tail. -/
def insertUnderscores : List Char → List Char
  | [] => []
  | c :: rest =>
      if isAsciiUppercase c then
        '_' :: c :: insertUnderscores rest
      else
        c :: insertUnderscores rest

/-- Error of `Id::dex_node_grpc_var` (id.rs lines 34-36): the
`bail!` on a zero-length network identifier. -/
inductive IdError where
  | zeroLengthNetwork
  deriving Repr, DecidableEq

/-- Derivation `Id::dex_node_grpc_var` (id.rs lines 31-56): reject an
empty network identifier (lines 34-36); insert `'_'` before each
ASCII-uppercase character after the first one (the `while let` loop,
lines 38-47, represented by `insertUnderscores` on the tail);
ASCII-uppercase the whole string and replace each `'-'` by `'_'`
(line 49 — the replacement string is the single character `'_'`, so
`str::replace` is a per-character map); append the `"__NODE_GRPC"`
suffix (lines 51-53).

Panic path: the loop condition slices `network[search_index..]` by
*byte* index with `search_index` starting at 1 (lines 38-40).  When
the first character of the identifier occupies more than one byte in
UTF-8, byte 1 is not a character boundary and that slice panics.
Every later slice index is a boundary (`index + 2` sits right after an
inserted one-byte `'_'` plus a one-byte ASCII-uppercase character),
so a multi-byte first character is the only panic path.  The panic is
represented by `none`; `some` carries the function's `Result`. -/
def dex_node_grpc_var (network : String) : Option (Except IdError String) :=
  match network.toList with
  | [] => some (.error .zeroLengthNetwork)
  | c :: rest =>
      if c.utf8Size = 1 then
        some (.ok (String.mk
          (((c :: insertUnderscores rest).map to_ascii_uppercase).map
            fun ch => if ch = '-' then '_' else ch)
          ++ ("__NODE_GRPC")))
      else
        none

/-! ## Claim theorems -/

/-- C1 counterexample: in the broadcaster iteration that receives
code 11 (an "other nonzero code") while the consecutive-error counter
stands at 4, the error budget trips and `fetch_sequence_number`
overwrites the sequence number with the chain's answer (here 99), so
the sequence number does not stay unchanged at 10 as the claim
requires (the state `consecutive_errors = 4` is reachable after four
consecutive nonzero-code responses). -/
theorem broadcast_seq_changed_by_refresh :
    (broadcastIter ⟨10, 4⟩ (.response 11) 99).state.sequenceNumber = 99
    ∧ ¬((broadcastIter ⟨10, 4⟩ (.response 11) 99).state.sequenceNumber = 10) := by
  decide

/-- C1 (amended): in every broadcaster iteration that does not trip
the error-budget refresh (the consecutive-error counter is below 4
beforehand), the sequence number is incremented by exactly one when
and only when the obtained response's code is 0 or 32, and is
unchanged on any other nonzero code, on a transport-level broadcast
error, and on expiration; in a refresh-tripping iteration the
sequence number is instead overwritten with the freshly fetched
value. -/
theorem broadcast_sequence_increment_iff (st : BroadcastState)
    (outcome : BroadcastOutcome) (fetchedSeq : Nat)
    (h : st.consecutiveErrors < 4) :
    ((broadcastIter st outcome fetchedSeq).state.sequenceNumber
        = st.sequenceNumber + 1
      ∨ (broadcastIter st outcome fetchedSeq).state.sequenceNumber
        = st.sequenceNumber)
    ∧ ((broadcastIter st outcome fetchedSeq).state.sequenceNumber
          = st.sequenceNumber + 1
        ↔ outcome = .response 0 ∨ outcome = .response 32) := by
  have hmod : (st.consecutiveErrors + 1) % 5 = st.consecutiveErrors + 1 :=
    Nat.mod_eq_of_lt (by omega)
  cases outcome with
  | expired => simp [broadcastIter]
  | transportFailed => simp [broadcastIter]
  | response code =>
      by_cases h0 : code = 0
      · subst h0
        simp [broadcastIter]
      · by_cases h32 : code = 32
        · subst h32
          simp [broadcastIter, hmod]
        · simp [broadcastIter, h0, h32, hmod]

/-- Witness for C1 (amended) at a successful iteration from sequence
number 7 with a clean error counter. -/
theorem broadcast_sequence_increment_iff_witness :
    ((broadcastIter ⟨7, 0⟩ (.response 0) 0).state.sequenceNumber = 7 + 1
      ∨ (broadcastIter ⟨7, 0⟩ (.response 0) 0).state.sequenceNumber = 7)
    ∧ ((broadcastIter ⟨7, 0⟩ (.response 0) 0).state.sequenceNumber = 7 + 1
        ↔ BroadcastOutcome.response 0 = .response 0
          ∨ BroadcastOutcome.response 0 = .response 32) :=
  broadcast_sequence_increment_iff ⟨7, 0⟩ (.response 0) 0 (by decide)

/-- C2: on a broadcast response, the broadcaster invokes
`increment_sequence_number` exactly for codes 0 and 32, and delivers
feedback and exits the per-package loop (moving to the next package)
exactly for codes other than 32; hence on code 32 it increments the
sequence number, delivers no feedback, and falls through to the
retry-delay sleep, retrying the same package from the
simulate-and-sign step. -/
theorem broadcast_code32_retries (st : BroadcastState) (code fetchedSeq : Nat) :
    (broadcastIter st (.response code) fetchedSeq).incrementCalled
        = (code == 0 || code == 32)
    ∧ (broadcastIter st (.response code) fetchedSeq).feedbackDelivered
        = (code != 32)
    ∧ (broadcastIter st (.response code) fetchedSeq).exitsLoop
        = (code != 32) := by
  by_cases h0 : code = 0
  · subst h0
    simp [broadcastIter]
  · by_cases hce : (st.consecutiveErrors + 1) % 5 = 0 <;>
      simp [broadcastIter, h0, hce]

/-- C3 counterexample: five consecutive transport-level broadcast
errors (an error trace with no interleaved success) cause zero
`fetch_sequence_number` calls, not exactly one, because a
transport-level error skips the consecutive-error counter increment
(`break` out of the process block): a single transport error from a
clean counter leaves the counter at 0 rather than incrementing it to
1. -/
theorem broadcast_transport_error_no_budget :
    (broadcastTrace ⟨7, 0⟩
        (List.replicate 5 (BroadcastOutcome.transportFailed, 0))).2 = 0
    ∧ ¬((broadcastTrace ⟨7, 0⟩
        (List.replicate 5 (BroadcastOutcome.transportFailed, 0))).2 = 1)
    ∧ (broadcastIter ⟨7, 0⟩ .transportFailed 0).state.consecutiveErrors = 0 := by
  decide

/-- C3 (amended): after five consecutive nonzero-code responses
without an interleaved success, the broadcaster makes exactly one
`fetch_sequence_number` call and the consecutive-error counter resets
to 0; a transport-level broadcast error leaves the consecutive-error
counter unchanged (and makes no fetch call), so it does not count
toward the error budget. -/
theorem broadcast_error_budget (seq c1 c2 c3 c4 c5 f1 f2 f3 f4 f5 : Nat)
    (h1 : c1 ≠ 0) (h2 : c2 ≠ 0) (h3 : c3 ≠ 0) (h4 : c4 ≠ 0) (h5 : c5 ≠ 0) :
    (broadcastTrace ⟨seq, 0⟩
        [(.response c1, f1), (.response c2, f2), (.response c3, f3),
         (.response c4, f4), (.response c5, f5)]).2 = 1
    ∧ (broadcastTrace ⟨seq, 0⟩
        [(.response c1, f1), (.response c2, f2), (.response c3, f3),
         (.response c4, f4), (.response c5, f5)]).1.consecutiveErrors = 0
    ∧ ∀ (st : BroadcastState) (g : Nat),
        (broadcastIter st .transportFailed g).state.consecutiveErrors
            = st.consecutiveErrors
        ∧ (broadcastIter st .transportFailed g).fetchCalls = 0 := by
  refine ⟨?_, ?_, fun st g => ⟨rfl, rfl⟩⟩ <;>
    simp [broadcastTrace, broadcastIter, h1, h2, h3, h4, h5]

/-- Witness for C3 (amended): five consecutive code-11 responses from
a clean counter make exactly one fetch call and end with the counter
at 0. -/
theorem broadcast_error_budget_witness :
    (broadcastTrace ⟨7, 0⟩
        [(.response 11, 20), (.response 11, 20), (.response 11, 20),
         (.response 11, 20), (.response 11, 20)]).2 = 1
    ∧ (broadcastTrace ⟨7, 0⟩
        [(.response 11, 20), (.response 11, 20), (.response 11, 20),
         (.response 11, 20), (.response 11, 20)]).1.consecutiveErrors = 0
    ∧ ∀ (st : BroadcastState) (g : Nat),
        (broadcastIter st .transportFailed g).state.consecutiveErrors
            = st.consecutiveErrors
        ∧ (broadcastIter st .transportFailed g).fetchCalls = 0 :=
  broadcast_error_budget 7 11 11 11 11 11 20 20 20 20 20
    (by decide) (by decide) (by decide) (by decide) (by decide)

/-- C4: when the package's expiration fires before the broadcast
completes, the iteration leaves the whole broadcaster state (sequence
number and consecutive-error counter) unchanged, calls neither
`increment_sequence_number` nor `fetch_sequence_number`, delivers no
feedback, and exits the per-package loop, proceeding to the next
package. -/
theorem broadcast_expiration_pure (st : BroadcastState) (fetchedSeq : Nat) :
    broadcastIter st .expired fetchedSeq = ⟨st, false, 0, false, true⟩ :=
  rfl

/-- C5 counterexample: `commit_tx_with_gas_estimation` with a
simulation gas limit of 100, a successful simulation reporting
`gas_used = 100`, and adjustment ratio 2/1 signs the transaction at
gas 200, not at `min(100, 100 × 2 / 1) = 100`: the chain-comms path
applies the adjustment without capping at the limit the simulation
ran under. -/
theorem gas_estimation_uncapped :
    commit_tx_with_gas_estimation_gas 100 (.ok (some ⟨100, 100⟩)) 50 2 1 = 200
    ∧ min 100 (100 * 2 / 1) = 100
    ∧ ¬(commit_tx_with_gas_estimation_gas 100 (.ok (some ⟨100, 100⟩)) 50 2 1
          = min 100 (100 * 2 / 1)) := by
  refine ⟨?_, by norm_num, ?_⟩ <;>
    norm_num [commit_tx_with_gas_estimation_gas, simulate_tx,
      adjusted_gas_limit]

/-- C5 (amended): in the broadcaster path, the signer's adjustment
caps the gas at the hard limit — the gas used is
`min(hard_gas_limit, simulated_gas × adj_num / adj_den)`, so whenever
the adjusted simulated gas reaches or exceeds the hard gas limit the
transaction is signed at exactly the hard gas limit; in the
chain-comms `commit_tx_with_gas_estimation` path the adjusted gas is
`tx_gas × adj_num / adj_den` clamped only to `u64::MAX`, with no cap
at the simulation gas limit. -/
theorem gas_adjustment_cap (simulatedGas hardGasLimit num den txGas : Nat)
    (hden : den ≠ 0) (hmul : txGas * num < 2 ^ 128)
    (hdiv : txGas * num / den < 2 ^ 64) :
    tx_with_gas_adjustment_gas simulatedGas hardGasLimit num den
        = min hardGasLimit (simulatedGas * num / den)
    ∧ (hardGasLimit ≤ simulatedGas * num / den →
        tx_with_gas_adjustment_gas simulatedGas hardGasLimit num den
          = hardGasLimit)
    ∧ adjusted_gas_limit txGas num den = txGas * num / den := by
  refine ⟨rfl, fun hle => min_eq_left hle, ?_⟩
  simp only [adjusted_gas_limit]
  rw [if_pos hmul]
  simp only []
  rw [if_neg hden]
  simp only []
  rw [if_pos hdiv]

/-- Witness for C5 (amended): simulated gas 100 with ratio 2/1
against hard limit 100 signs at the hard limit 100 in the broadcaster
path, while the chain-comms adjustment yields the uncapped 200. -/
theorem gas_adjustment_cap_witness :
    tx_with_gas_adjustment_gas 100 100 2 1 = min 100 (100 * 2 / 1)
    ∧ (100 ≤ 100 * 2 / 1 → tx_with_gas_adjustment_gas 100 100 2 1 = 100)
    ∧ adjusted_gas_limit 100 2 1 = 100 * 2 / 1 :=
  gas_adjustment_cap 100 100 2 1 100 (by norm_num) (by norm_num) (by norm_num)

/-- C6: where the gas multiplication can overflow, the computation
falls back to the unmultiplied gas value and never panics (all the
embedded arithmetic is total): the dispatcher's gas-adjustment
`gas_used × 11 / 10` falls back to the raw `gas_used` whenever the
`u64` multiplication overflows, and the fee calculation — a `u128`
saturating multiplication of `u64` operands — cannot overflow at all,
so its result is always the exact `gas_limit × num / den` (the
division by the nonzero configuration value cannot overflow
either). -/
theorem gas_overflow_falls_back (gasUsed gasLimit num den : Nat)
    (hover : 2 ^ 64 ≤ gasUsed * 11) (hgl : gasLimit < 2 ^ 64)
    (hnum : num < 2 ^ 64) :
    dispatcher_commit_gas gasUsed = gasUsed
    ∧ gasLimit * num < 2 ^ 128
    ∧ calculate_fee_amount gasLimit num den = gasLimit * num / den := by
  have hprod : gasLimit * num < 2 ^ 128 := by
    calc gasLimit * num < 2 ^ 64 * 2 ^ 64 := Nat.mul_lt_mul'' hgl hnum
    _ = 2 ^ 128 := by norm_num
  refine ⟨?_, hprod, ?_⟩
  · simp only [dispatcher_commit_gas]
    rw [if_neg (Nat.not_lt.mpr hover)]
    rfl
  · unfold calculate_fee_amount
    rw [min_eq_left (by omega)]

/-- Witness for C6: an overflowing dispatcher adjustment (2^61 × 11
does not fit in a u64) falls back to 2^61, and a small fee
computation is exact. -/
theorem gas_overflow_falls_back_witness :
    dispatcher_commit_gas (2 ^ 61) = 2 ^ 61
    ∧ 5 * 3 < 2 ^ 128
    ∧ calculate_fee_amount 5 3 2 = 5 * 3 / 2 :=
  gas_overflow_falls_back (2 ^ 61) 5 3 2
    (by norm_num) (by norm_num) (by norm_num)

/-- C7: after `k` status queries reporting alarms remaining whose
dispatches each report exactly `max_alarms` dispatched alarms, the
drain loop re-queries and re-dispatches; it returns to the idle
period, having sent `k + 1` transactions, on the first dispatch
reporting a count different from `max_alarms`, and having sent `k`
transactions on the first status query reporting nothing remaining. -/
theorem dispatch_alarm_drain (maxAlarms d k : Nat)
    (rest : List (Bool × Nat)) (hd : d ≠ maxAlarms) :
    dispatch_alarm maxAlarms
        (List.replicate k (true, maxAlarms) ++ (true, d) :: rest)
      = some (k + 1)
    ∧ dispatch_alarm maxAlarms
        (List.replicate k (true, maxAlarms) ++ (false, d) :: rest)
      = some k := by
  induction k with
  | zero => simp [dispatch_alarm, hd]
  | succ n ih =>
      refine ⟨?_, ?_⟩ <;>
        simp [List.replicate_succ, dispatch_alarm, ih.1, ih.2]

/-- Witness for C7, matching the spec's drain-loop scenario: three
full batches of 5 followed by a batch of 4 make exactly four
dispatch transactions; three full batches followed by an empty status
make exactly three. -/
theorem dispatch_alarm_drain_witness :
    dispatch_alarm 5 (List.replicate 3 (true, 5) ++ (true, 4) :: [])
      = some (3 + 1)
    ∧ dispatch_alarm 5 (List.replicate 3 (true, 5) ++ (false, 4) :: [])
      = some 3 :=
  dispatch_alarm_drain 5 4 3 [] (by decide)

/-- C8: a `ContractTx` whose message list is empty satisfies
`is_empty`, and committing it does not produce a signed transaction —
the commit is rejected with the empty-messages signing error. -/
theorem contract_tx_empty_rejected (contract : String) (signer : Signer)
    (fee : Fee) (memo : Option String) (timeout : Option Nat) :
    (ContractTx.new contract).is_empty = true
    ∧ (ContractTx.new contract).commit signer fee memo timeout
        = .error .emptyMessages :=
  ⟨rfl, rfl⟩

/-- C9 counterexample: an identifier whose first character is the
two-byte UTF-8 character é does not have a variable name derived for
it (and is not rejected as empty either): the byte-index slice
`network[1..]` panics, whereas the claimed derivation — underscore
insertion, ASCII uppercasing, dash replacement and the suffix —
would produce the name éB__NODE_GRPC. -/
theorem dex_node_grpc_var_panics_on_multibyte :
    dex_node_grpc_var ("éb") = none
    ∧ ¬(dex_node_grpc_var ("éb") = some (.ok ("éB__NODE_GRPC")))
    ∧ ¬(dex_node_grpc_var ("éb") = some (.error .zeroLengthNetwork)) := by
  refine ⟨rfl, ?_, ?_⟩ <;>
    · intro h
      rw [show dex_node_grpc_var ("éb") = none from rfl] at h
      exact Option.noConfusion h

/-- C9 (amended): for every network identifier whose first character
is a single-byte (ASCII) character, the per-network gRPC
environment-variable name is the identifier with an underscore
inserted before every ASCII-uppercase character after the first,
ASCII-uppercased, with dashes turned into underscores, and suffixed
with the node-gRPC marker — so `osmoTestnet` maps to
`OSMO_TESTNET__NODE_GRPC` — and the empty identifier is rejected with
an error; an identifier beginning with a multi-byte UTF-8 character
instead panics at the `network[1..]` byte-index slice, deriving no
name. -/
theorem dex_node_grpc_var_derivation (c : Char) (rest : List Char)
    (h : c.utf8Size = 1) :
    dex_node_grpc_var ("osmoTestnet") = some (.ok ("OSMO_TESTNET__NODE_GRPC"))
    ∧ dex_node_grpc_var ("") = some (.error .zeroLengthNetwork)
    ∧ dex_node_grpc_var (String.mk (c :: rest))
        = some (.ok (String.mk
            (((c :: insertUnderscores rest).map to_ascii_uppercase).map
              fun ch => if ch = '-' then '_' else ch)
            ++ ("__NODE_GRPC")))
    ∧ ∀ (d : Char) (tail : List Char), ¬(d.utf8Size = 1) →
        dex_node_grpc_var (String.mk (d :: tail)) = none := by
  refine ⟨rfl, rfl, ?_, ?_⟩
  · simp [dex_node_grpc_var, h]
  · intro d tail hd
    simp [dex_node_grpc_var, hd]

/-- Witness for C9 (amended) at the single-character ASCII identifier
`n`. -/
theorem dex_node_grpc_var_derivation_witness :
    dex_node_grpc_var ("osmoTestnet") = some (.ok ("OSMO_TESTNET__NODE_GRPC"))
    ∧ dex_node_grpc_var ("") = some (.error .zeroLengthNetwork)
    ∧ dex_node_grpc_var (String.mk ('n' :: []))
        = some (.ok (String.mk
            ((('n' :: insertUnderscores []).map to_ascii_uppercase).map
              fun ch => if ch = '-' then '_' else ch)
            ++ ("__NODE_GRPC")))
    ∧ ∀ (d : Char) (tail : List Char), ¬(d.utf8Size = 1) →
        dex_node_grpc_var (String.mk (d :: tail)) = none :=
  dex_node_grpc_var_derivation 'n' [] (by decide)

/-- C10: `simulate_tx` rejects any node reply whose reported
`gas_used` exceeds the requested gas limit with
`SimulationGasExceedsLimit`, so every successfully returned
simulation satisfies `gas_used ≤ gas_limit`. -/
theorem simulate_tx_gas_within_limit (gasLimit : Nat)
    (nodeResult : Except Unit (Option GasInfo)) (gasInfo : GasInfo)
    (h : simulate_tx gasLimit nodeResult = .ok gasInfo) :
    gasInfo.gasUsed ≤ gasLimit
    ∧ ∀ gi : GasInfo, gasLimit < gi.gasUsed →
        simulate_tx gasLimit (.ok (some gi))
          = .error (.simulationGasExceedsLimit gi.gasUsed) := by
  refine ⟨?_, fun gi hgi => by simp [simulate_tx, hgi]⟩
  match nodeResult with
  | .error e => simp [simulate_tx] at h
  | .ok none => simp [simulate_tx] at h
  | .ok (some gi) =>
      by_cases hlt : gasLimit < gi.gasUsed
      · simp [simulate_tx, hlt] at h
      · simp [simulate_tx, hlt] at h
        subst h
        omega

/-- Witness for C10: a simulation under limit 100 reporting 90 used
gas is accepted and satisfies the bound. -/
theorem simulate_tx_gas_within_limit_witness :
    (⟨120, 90⟩ : GasInfo).gasUsed ≤ 100
    ∧ ∀ gi : GasInfo, 100 < gi.gasUsed →
        simulate_tx 100 (.ok (some gi))
          = .error (.simulationGasExceedsLimit gi.gasUsed) :=
  simulate_tx_gas_within_limit 100 (.ok (some ⟨120, 90⟩)) ⟨120, 90⟩
    (by simp [simulate_tx])
